import Mathlib

/-!
Shallow embedding of the ATLAS-Round-One geometry/enclosure core and project
plumbing (src/geometry_tools.py, src/project.py, src/project_io.py,
src/material_db.py), with theorems settling the spec claims.

Numeric modelling: Python floats are modelled as exact rationals (ℚ) where the
code only does field arithmetic and comparisons, and as reals (ℝ) where a
Euclidean norm (square root) enters.  `numpy` / `trimesh` are external
libraries: the attributes the repository reads from a `trimesh.Trimesh`
(`vertices`, `bounds`, `is_watertight`, `principal_inertia_transform`) are
modelled as data carried by the `Mesh` structure, with `bounds` computed from
the vertex list exactly as numpy does (componentwise min/max).
-/

namespace Atlas

/-- A 3-vector of rationals (a row of a numpy `(n,3)` float array). -/
abbrev Vec3 := Fin 3 → ℚ

/-- A triangular face: a row of a trimesh `(m,3)` integer face array. -/
abbrev Face := ℕ × ℕ × ℕ

/-- Model of the `trimesh.Trimesh` objects this repository reads.
`watertightQ` models the external `is_watertight` attribute access, which can
either produce a value or raise (`Except.error`); `pit` models the external
`principal_inertia_transform` property (a rigid transform). -/
structure Affine3 where
  rot : Fin 3 → Fin 3 → ℝ
  trans : Fin 3 → ℝ

structure Mesh where
  vertices : List Vec3
  faces : List Face
  watertightQ : Except String Bool
  pit : Affine3

/-- Output shell: a mesh whose vertex coordinates live in ℝ (they involve the
bounding-diagonal square root through the pad). -/
structure BoxMesh where
  vertices : List (Fin 3 → ℝ)
  faces : List Face

/-- Python `str.lower()` (ASCII), mapped over the character list.  (Lean's
own `String.toLower` is defined by well-founded recursion on byte positions
and does not reduce definitionally; this equivalent form does.) -/
def pyLower (s : String) : String := ⟨s.data.map Char.toLower⟩

/-- `geometry_tools.is_watertight`: `None` input and any failure of the
external attribute access both yield `False`. -/
def is_watertight (m : Option Mesh) : Bool :=
  match m with
  | none => false
  | some m =>
    match m.watertightQ with
    | .ok b => b
    | .error _ => false

/-- Componentwise bounding minimum of a vertex list (numpy `m.bounds[0]`).
The repository only reads bounds of nonempty meshes; the `[]` case is junk. -/
def boundsMin (vs : List Vec3) (i : Fin 3) : ℚ :=
  match vs with
  | [] => 0
  | v :: t => t.foldl (fun a w => min a (w i)) (v i)

/-- Componentwise bounding maximum of a vertex list (numpy `m.bounds[1]`). -/
def boundsMax (vs : List Vec3) (i : Fin 3) : ℚ :=
  match vs with
  | [] => 0
  | v :: t => t.foldl (fun a w => max a (w i)) (v i)

/-- Componentwise bounding minimum of a real vertex list (used in the OBB
branch, where the mesh has been carried into the principal inertia frame). -/
noncomputable def boundsMinR (vs : List (Fin 3 → ℝ)) (i : Fin 3) : ℝ :=
  match vs with
  | [] => 0
  | v :: t => t.foldl (fun a w => min a (w i)) (v i)

/-- Componentwise bounding maximum of a real vertex list. -/
noncomputable def boundsMaxR (vs : List (Fin 3 → ℝ)) (i : Fin 3) : ℝ :=
  match vs with
  | [] => 0
  | v :: t => t.foldl (fun a w => max a (w i)) (v i)

/-- `np.linalg.norm(bb_max - bb_min)`: Euclidean diagonal of the AABB. -/
noncomputable def meshDiag (m : Mesh) : ℝ :=
  Real.sqrt (∑ i : Fin 3,
    ((boundsMax m.vertices i : ℝ) - (boundsMin m.vertices i : ℝ)) ^ 2)

/-- Vertices of trimesh's unit cube (`trimesh.creation.box` before the
`-= 0.5` / `*= extents` rescaling), in trimesh's hardcoded order. -/
noncomputable def unitCorners : List (Fin 3 → ℝ) :=
  [![0, 0, 0], ![0, 0, 1], ![0, 1, 0], ![0, 1, 1],
   ![1, 0, 0], ![1, 0, 1], ![1, 1, 0], ![1, 1, 1]]

/-- The hardcoded outward-facing triangular faces of `trimesh.creation.box`:
this is the naive outward-facing box's winding. -/
def outwardBoxFaces : List Face :=
  [(1, 3, 0), (4, 1, 0), (0, 3, 2), (2, 4, 0), (1, 7, 3), (5, 1, 4),
   (5, 7, 1), (3, 7, 2), (6, 4, 2), (2, 7, 6), (6, 5, 4), (7, 5, 6)]

/-- `trimesh.creation.box(extents=e)`: unit-cube corners shifted by −0.5 and
scaled per axis by the extents, with the hardcoded outward faces. -/
noncomputable def boxCreation (extents : Fin 3 → ℝ) : BoxMesh where
  vertices := unitCorners.map (fun v i => (v i - 1 / 2) * extents i)
  faces := outwardBoxFaces

/-- `box.apply_translation(c)`. -/
noncomputable def applyTranslation (b : BoxMesh) (c : Fin 3 → ℝ) : BoxMesh where
  vertices := b.vertices.map (fun v i => v i + c i)
  faces := b.faces

/-- `box.apply_transform(T)` for a rigid transform `T` (rotation +
translation).  trimesh only flips face winding for reflective transforms;
the principal inertia transform is a proper rotation, so faces are kept. -/
noncomputable def applyTransformB (b : BoxMesh) (T : Affine3) : BoxMesh where
  vertices := b.vertices.map (fun v i => (∑ j : Fin 3, T.rot i j * v j) + T.trans i)
  faces := b.faces

/-- Inverse of a rigid transform (`np.linalg.inv(T)`): transposed rotation,
back-rotated negated translation. -/
noncomputable def Affine3.inv (T : Affine3) : Affine3 where
  rot := fun i j => T.rot j i
  trans := fun i => -(∑ j : Fin 3, T.rot j i * T.trans j)

/-- Apply a rigid transform to a point. -/
noncomputable def Affine3.apply (T : Affine3) (v : Fin 3 → ℝ) : Fin 3 → ℝ :=
  fun i => (∑ j : Fin 3, T.rot i j * v j) + T.trans i

/-- `face[::-1]`: reverse a face's winding order. -/
def revFace (f : Face) : Face := (f.2.2, f.2.1, f.1)

/-- `geometry_tools.make_bounding_box`.  Raising is modelled with `Except`:
an empty mesh raises `ValueError("Empty mesh")`.  (The `trimesh is None`
environment guard is outside the model: the library is present.) -/
noncomputable def make_bounding_box (m : Mesh) (mode : String) (padRel : ℝ) :
    Except String BoxMesh :=
  if m.vertices.isEmpty then .error "Empty mesh" else
  let bbMin : Fin 3 → ℝ := fun i => (boundsMin m.vertices i : ℝ)
  let bbMax : Fin 3 → ℝ := fun i => (boundsMax m.vertices i : ℝ)
  let diag0 := meshDiag m
  let diag := max diag0 (1 / 1000000)
  let pad := diag * padRel
  let box :=
    if pyLower mode == "obb" then
      let T := m.pit
      let mLocal := m.vertices.map (fun v => T.inv.apply (fun i => (v i : ℝ)))
      let extents := fun i => (boundsMaxR mLocal i - boundsMinR mLocal i) + 2 * pad
      let centerL := fun i => (boundsMinR mLocal i + boundsMaxR mLocal i) * (1 / 2)
      applyTransformB (applyTranslation (boxCreation extents) centerL) T
    else
      let center := fun i => (bbMin i + bbMax i) * (1 / 2)
      let extents := fun i => (bbMax i - bbMin i) + 2 * pad
      applyTranslation (boxCreation extents) center
  .ok ⟨box.vertices, box.faces.map revFace⟩

/-- `make_bounding_box` applied to a possibly-`None` mesh, as the enclosure
manager does: attribute access on `None` raises (`AttributeError`). -/
noncomputable def make_bounding_boxO (m : Option Mesh) (mode : String)
    (padRel : ℝ) : Except String BoxMesh :=
  match m with
  | none => .error "AttributeError"
  | some m => make_bounding_box m mode padRel

/-- Part payloads: the original components are trimesh meshes, the synthesized
enclosure is a box shell. -/
inductive Shape where
  | part (m : Mesh)
  | shell (b : BoxMesh)

/-- The list comprehension stripping any existing bounds part:
`[(n, c) for (n, c) in parts_named if n != part_name]`. -/
def stripParts (partsNamed : List (String × Shape)) (partName : String) :
    List (String × Shape) :=
  partsNamed.filter (fun p => p.1 != partName)

/-- `geometry_tools.add_or_update_enclosure`: strip existing bounds part,
then decide on enabled/force/watertightness; any failure while building the
shell is caught and the stripped list returned. -/
noncomputable def add_or_update_enclosure (mesh : Option Mesh)
    (partsNamed : List (String × Shape)) (enabled : Bool) (mode : String)
    (padRel : ℝ) (force : Bool) (partName : String) : List (String × Shape) :=
  let partsClean := stripParts partsNamed partName
  if !enabled && !force then partsClean
  else
    if force || !is_watertight mesh then
      match make_bounding_boxO mesh mode padRel with
      | .ok box => partsClean ++ [(partName, Shape.shell box)]
      | .error _ => partsClean
    else partsClean

/-- `geometry_tools.reorder_bounds_last` (polymorphic over the payload, as the
Python tuples are untyped). -/
def reorder_bounds_last {α : Type} (partsNamed : List (String × α)) :
    List (String × α) :=
  partsNamed.filter (fun p => p.1 != "Bounds")
    ++ partsNamed.filter (fun p => p.1 == "Bounds")

/-! ## project_io.py -/

/-- Python `int(round(x))` on a float that numpy/Python `round` maps to an
integer: round half to even (banker's rounding). -/
def pyRound (x : ℚ) : ℤ :=
  let f := ⌊x⌋
  let r := x - f
  if r < 1 / 2 then f
  else if 1 / 2 < r then f + 1
  else if f % 2 == 0 then f else f + 1

/-- The `enclosure` sub-dictionary; every field read with `.get` and a
default, so each is optional. -/
structure EncDict where
  enabled : Option Bool
  mode : Option String
  pad : Option ℚ

/-- A project dictionary as produced by `serialize_project` / consumed by
`load_project_into_state` (fields read with `.get` are optional). -/
structure PDict where
  version : ℤ
  mesh_path : Option String
  render_mode : Option String
  assignments : List (String × String)
  enclosure : Option EncDict

/-- The UI-restore values computed by `load_project_into_state`. -/
structure UIRestore where
  enclosure_enabled : Bool
  enclosure_mode_text : String
  enclosure_pad_percent : ℤ
  render_mode_text : String

/-- `project_io.serialize_project`. -/
def serialize_project (mesh_path : Option String)
    (assignments : List (String × String)) (render_mode : String)
    (enclosure : EncDict) (version : ℤ) : PDict :=
  ⟨version, mesh_path, some render_mode, assignments,
   some ⟨some (enclosure.enabled.getD true),
         some (enclosure.mode.getD "aabb"),
         some (enclosure.pad.getD (5 / 100))⟩⟩

/-- `project_io.load_project_into_state`. -/
def load_project_into_state (data : PDict) : UIRestore × Option String :=
  let enc := data.enclosure.getD ⟨none, none, none⟩
  let encEnabled := enc.enabled.getD true
  let encMode := enc.mode.getD "aabb"
  let encPad := enc.pad.getD (5 / 100)
  (⟨encEnabled,
    if encMode == "aabb" then "AABB (fast)" else "OBB (tight)",
    pyRound (encPad * 100),
    if (pyLower (data.render_mode.getD "shaded")).startsWith "wire"
      then "Wireframe" else "Shaded"⟩,
   data.mesh_path)

/-! ## materials.py / material_db.py -/

/-- The `Material` dataclass of materials.py (numpy arrays as rational
lists). -/
structure Material where
  name : String
  freqs : List ℚ
  alpha : List ℚ
  tau : List ℚ
  scatter : List ℚ
  kind : String
deriving DecidableEq

/-- One record of the `materials` mapping of a library JSON document; fields
read with `.get` / defaults are optional. -/
structure MatRec where
  alpha : Option (List ℚ)
  scatter : Option (List ℚ)
  kind : Option String
deriving DecidableEq

/-- A material-library JSON document (`_meta.bands_hz` plus the `materials`
mapping, as an association list). -/
structure MatJsonDoc where
  bands_hz : List ℚ
  materials : List (String × MatRec)

/-- materials database: native bands plus name-indexed items. -/
structure MaterialDB where
  native_bands : List ℚ
  items : List (String × Material)

/-- The per-record body of the `MaterialDB.from_json` loop:
`alpha = rec.get("alpha", [])`, `scatter = rec.get("scatter", [0]*len(alpha))`,
`tau = np.zeros_like(alpha)`, `freqs = bands`, `kind = rec.get("kind",
"generic")`. -/
def buildMaterial (bands : List ℚ) (name : String) (rec : MatRec) : Material :=
  let alpha := rec.alpha.getD []
  let scatter := rec.scatter.getD (List.replicate alpha.length 0)
  ⟨name, bands, alpha, List.replicate alpha.length 0, scatter,
   rec.kind.getD "generic"⟩

/-- `MaterialDB.from_json` (the file read and JSON parse are external; the
parsed document is the input). -/
def MaterialDB.from_json (doc : MatJsonDoc) : MaterialDB :=
  let bands := doc.bands_hz
  ⟨bands, doc.materials.map (fun p => (p.1, buildMaterial bands p.1 p.2))⟩

/-- The equal-length invariant claimed for stored materials. -/
def lenInvariant (m : Material) : Prop :=
  m.freqs.length = m.alpha.length ∧ m.alpha.length = m.scatter.length ∧
    m.scatter.length = m.tau.length

instance (m : Material) : Decidable (lenInvariant m) := by
  unfold lenInvariant; infer_instance

/-! ## project.py -/

/-- `ProjectState` of project.py; the assignments dict is an association
list, `matlib` a nullable `MaterialDB`. -/
structure ProjectState where
  mesh : Option Mesh
  parts : List (String × Shape)
  matlib : Option MaterialDB
  assignments : List (String × String)
  current_part_index : ℤ

/-- `ProjectState.__init__`. -/
def ProjectState.init : ProjectState := ⟨none, [], none, [], -1⟩

/-- `ProjectState.set_parts`: replace mesh, rebuild `Part_{i}` names from the
components, clear assignments.  (`matlib` and `current_part_index` are not
touched.) -/
def ProjectState.set_parts (st : ProjectState) (mesh : Option Mesh)
    (comps : List Shape) : ProjectState :=
  ⟨mesh, comps.enum.map (fun p => ("Part_" ++ toString p.1, p.2)),
   st.matlib, [], st.current_part_index⟩

/-! ## Concrete fixtures used by witnesses and counterexamples -/

/-- The identity rigid transform (a stand-in principal inertia transform for
concrete meshes). -/
noncomputable def idAffine : Affine3 :=
  ⟨fun i j => if i = j then 1 else 0, fun _ => 0⟩

/-- A one-vertex mesh at the origin that reports watertight. -/
noncomputable def meshA : Mesh := ⟨[![0, 0, 0]], [], .ok true, idAffine⟩

/-- A mesh whose watertightness query raises. -/
noncomputable def meshErr : Mesh := ⟨[![0, 0, 0]], [], .error "boom", idAffine⟩

/-- An empty mesh (no vertices): `make_bounding_box` rejects it. -/
noncomputable def meshEmpty : Mesh := ⟨[], [], .ok false, idAffine⟩

/-- A non-watertight two-vertex mesh. -/
noncomputable def meshB : Mesh :=
  ⟨[![0, 0, 0], ![1, 2, 2]], [], .ok false, idAffine⟩

/-- The shell that `make_bounding_box` builds for `meshA` in AABB mode with
zero padding. -/
noncomputable def boxA : BoxMesh :=
  (make_bounding_boxO (some meshA) "aabb" 0).toOption.getD ⟨[], []⟩

/-- The shell that `make_bounding_box` builds for `meshB` in AABB mode with
zero padding. -/
noncomputable def boxB : BoxMesh :=
  (make_bounding_boxO (some meshB) "aabb" 0).toOption.getD ⟨[], []⟩

/-- A dummy non-bounds part payload. -/
noncomputable def shapeA : Shape := Shape.part meshA

/-- A dummy payload standing for an old enclosure part. -/
def shapeOld : Shape := Shape.shell ⟨[], []⟩

/-- The corners of the axis-aligned rectangular box with center `c` and
per-axis extents `e`, in trimesh's corner order. -/
noncomputable def rectCorners (c e : Fin 3 → ℝ) : List (Fin 3 → ℝ) :=
  [![c 0 - e 0 / 2, c 1 - e 1 / 2, c 2 - e 2 / 2],
   ![c 0 - e 0 / 2, c 1 - e 1 / 2, c 2 + e 2 / 2],
   ![c 0 - e 0 / 2, c 1 + e 1 / 2, c 2 - e 2 / 2],
   ![c 0 - e 0 / 2, c 1 + e 1 / 2, c 2 + e 2 / 2],
   ![c 0 + e 0 / 2, c 1 - e 1 / 2, c 2 - e 2 / 2],
   ![c 0 + e 0 / 2, c 1 - e 1 / 2, c 2 + e 2 / 2],
   ![c 0 + e 0 / 2, c 1 + e 1 / 2, c 2 - e 2 / 2],
   ![c 0 + e 0 / 2, c 1 + e 1 / 2, c 2 + e 2 / 2]]

/-- The counterexample material-library document for the length invariant:
`bands_hz` has two bands, `m1` has a single-band `alpha` and no `scatter`,
`m2` has a single-band `alpha` and a three-entry `scatter`. -/
def docCex : MatJsonDoc :=
  ⟨[125, 250],
   [("m1", ⟨some [1 / 10], none, none⟩),
    ("m2", ⟨some [1 / 10], some [0, 0, 0], none⟩)]⟩

/-! ## Theorems -/

/-- C6: `is_watertight` returns a boolean for every input (it is total, hence
never raises, and pure): `None` yields `false`, a failing topological-closure
query yields `false`, and a successful query is passed through. -/
theorem is_watertight_failsafe :
    is_watertight none = false ∧
    (∀ (m : Mesh) (e : String), m.watertightQ = .error e →
      is_watertight (some m) = false) ∧
    (∀ (m : Mesh) (b : Bool), m.watertightQ = .ok b →
      is_watertight (some m) = b) := by
  refine ⟨rfl, ?_, ?_⟩ <;> · intro m x h; simp [is_watertight, h]

/-- Witness for C6: a mesh whose watertightness query raises is reported
non-watertight. -/
theorem is_watertight_failsafe_witness : is_watertight (some meshErr) = false :=
  is_watertight_failsafe.2.1 meshErr "boom" rfl

/-- C5: `reorder_bounds_last` leaves a list with no `"Bounds"` entry
unchanged, and moves a unique `"Bounds"` entry from any position strictly to
the end while keeping all other parts in their original relative order. -/
theorem reorder_bounds_last_spec :
    (∀ (α : Type) (l : List (String × α)),
      (∀ p ∈ l, p.1 ≠ "Bounds") → reorder_bounds_last l = l) ∧
    (∀ (α : Type) (l1 l2 : List (String × α)) (p : String × α),
      p.1 = "Bounds" →
      (∀ q ∈ l1, q.1 ≠ "Bounds") → (∀ q ∈ l2, q.1 ≠ "Bounds") →
      reorder_bounds_last (l1 ++ p :: l2) = (l1 ++ l2) ++ [p]) := by
  constructor
  · intro α l hl
    have h1 : l.filter (fun p => p.1 != "Bounds") = l :=
      List.filter_eq_self.mpr (fun a ha => by simpa using hl a ha)
    have h2 : l.filter (fun p => p.1 == "Bounds") = [] := by
      rw [List.filter_eq_nil_iff]
      intro a ha
      simpa using hl a ha
    simp [reorder_bounds_last, h1, h2]
  · intro α l1 l2 p hp h1 h2
    have e1 : l1.filter (fun q => q.1 != "Bounds") = l1 :=
      List.filter_eq_self.mpr (fun a ha => by simpa using h1 a ha)
    have e2 : l2.filter (fun q => q.1 != "Bounds") = l2 :=
      List.filter_eq_self.mpr (fun a ha => by simpa using h2 a ha)
    have e3 : l1.filter (fun q => q.1 == "Bounds") = [] := by
      rw [List.filter_eq_nil_iff]; intro a ha; simpa using h1 a ha
    have e4 : l2.filter (fun q => q.1 == "Bounds") = [] := by
      rw [List.filter_eq_nil_iff]; intro a ha; simpa using h2 a ha
    simp [reorder_bounds_last, List.filter_append, List.filter_cons, hp,
      e1, e2, e3, e4]

/-- Witness for C5: a middle `"Bounds"` entry moves to the end, the others
keep their order. -/
theorem reorder_bounds_last_witness :
    reorder_bounds_last [("A", 1), ("Bounds", 2), ("B", 3)]
      = [("A", 1), ("B", 3), ("Bounds", 2)] := by
  have h := reorder_bounds_last_spec.2 ℕ [("A", 1)] [("B", 3)] ("Bounds", 2)
    rfl (by decide) (by decide)
  simpa using h

/-- C10: `set_parts` replaces the mesh, rebuilds the parts as
`Part_0 … Part_{n-1}` in component order and clears the assignments, but does
not touch `current_part_index`; consequently a stored selection index can
point past the end of the new, shorter part list. -/
theorem set_parts_keeps_selection_index :
    (∀ (st : ProjectState) (mesh : Option Mesh) (comps : List Shape),
      (st.set_parts mesh comps).mesh = mesh ∧
      (st.set_parts mesh comps).parts.map Prod.fst
        = (List.range comps.length).map (fun i => "Part_" ++ toString i) ∧
      (st.set_parts mesh comps).assignments = [] ∧
      (st.set_parts mesh comps).matlib = st.matlib ∧
      (st.set_parts mesh comps).current_part_index
        = st.current_part_index) ∧
    (∃ st : ProjectState,
      ((st.set_parts none []).parts.length : ℤ)
        ≤ (st.set_parts none []).current_part_index) := by
  constructor
  · intro st mesh comps
    refine ⟨rfl, ?_, rfl, rfl, rfl⟩
    simp only [ProjectState.set_parts, List.map_map]
    rw [← List.enum_map_fst comps, List.map_map]
    rfl
  · exact ⟨⟨none, [("Part_0", shapeOld), ("Part_1", shapeOld)], none, [], 1⟩,
      by simp [ProjectState.set_parts]⟩

/-- C9 counterexample: `from_json` does not validate lengths, so a document
whose band count differs from a material's `alpha` length (or whose `scatter`
length differs) yields stored materials violating the four-way equal-length
invariant. -/
theorem from_json_len_invariant_cex :
    ¬ (∀ p ∈ (MaterialDB.from_json docCex).items, lenInvariant p.2) := by
  decide

/-- C9 amended: every stored material has `tau` of the same length as
`alpha` and `freqs` equal to the library's native bands (whatever their
count); when a record omits `scatter`, the zero-filled default also matches
`alpha`'s length.  Equality of the `freqs`/`alpha` lengths (and of a
supplied `scatter`'s length) is not enforced. -/
theorem from_json_partial_len_invariant :
    (∀ (doc : MatJsonDoc) (p : String × Material),
      p ∈ (MaterialDB.from_json doc).items →
      p.2.tau.length = p.2.alpha.length ∧ p.2.freqs = doc.bands_hz) ∧
    (∀ (doc : MatJsonDoc) (n : String) (r : MatRec),
      (n, r) ∈ doc.materials → r.scatter = none →
      (n, buildMaterial doc.bands_hz n r) ∈ (MaterialDB.from_json doc).items ∧
      (buildMaterial doc.bands_hz n r).scatter.length
        = (buildMaterial doc.bands_hz n r).alpha.length) := by
  constructor
  · intro doc p hp
    obtain ⟨q, hq, rfl⟩ := List.mem_map.mp hp
    simp [buildMaterial]
  · intro doc n r hmem hscatter
    constructor
    · exact List.mem_map.mpr ⟨(n, r), hmem, rfl⟩
    · simp [buildMaterial, hscatter]

/-- Witness for C9's amended theorem: the scatter-less record of `docCex`
lands in the database with matching `alpha`/`scatter`/`tau` lengths. -/
theorem from_json_partial_len_invariant_witness :
    ("m1", buildMaterial docCex.bands_hz "m1" ⟨some [1 / 10], none, none⟩)
      ∈ (MaterialDB.from_json docCex).items ∧
    (buildMaterial docCex.bands_hz "m1" ⟨some [1 / 10], none, none⟩).scatter.length
      = (buildMaterial docCex.bands_hz "m1" ⟨some [1 / 10], none, none⟩).alpha.length :=
  from_json_partial_len_invariant.2 docCex "m1" ⟨some [1 / 10], none, none⟩
    (List.mem_cons_self _ _) rfl

/-- Auxiliary: Python's banker's rounding is within 1/2 of its argument. -/
theorem abs_pyRound_sub_le (x : ℚ) : |(pyRound x : ℚ) - x| ≤ 1 / 2 := by
  have hdef : pyRound x =
      if x - (⌊x⌋ : ℚ) < 1 / 2 then ⌊x⌋
      else if 1 / 2 < x - (⌊x⌋ : ℚ) then ⌊x⌋ + 1
      else if (⌊x⌋ % 2 == 0) = true then ⌊x⌋ else ⌊x⌋ + 1 := rfl
  have h0 : (⌊x⌋ : ℚ) ≤ x := Int.floor_le x
  have h1 : x < ⌊x⌋ + 1 := Int.lt_floor_add_one x
  rw [hdef]
  split_ifs with hlt hgt hev <;> rw [abs_le] <;> constructor <;>
    push_cast <;> linarith

/-- C8: serializing a project (pad stored as a relative fraction) and loading
it back (pad presented as the integer percentage `round(pad*100)`) restores
the pad to within 1/100. -/
theorem project_pad_roundtrip (mesh_path : Option String)
    (assignments : List (String × String)) (render_mode : String)
    (enabled : Option Bool) (mode : Option String) (version : ℤ) (pad : ℚ)
    (hpad : 0 ≤ pad) :
    |((load_project_into_state (serialize_project mesh_path assignments
          render_mode ⟨enabled, mode, some pad⟩ version)).1.enclosure_pad_percent
        : ℚ) / 100 - pad| ≤ 1 / 100 := by
  have hpercent : (load_project_into_state (serialize_project mesh_path
      assignments render_mode ⟨enabled, mode, some pad⟩ version)).1.enclosure_pad_percent
      = pyRound (pad * 100) := rfl
  rw [hpercent]
  have h := abs_pyRound_sub_le (pad * 100)
  have hrw : (pyRound (pad * 100) : ℚ) / 100 - pad
      = ((pyRound (pad * 100) : ℚ) - pad * 100) / 100 := by ring
  rw [hrw, abs_div]
  rw [show |(100 : ℚ)| = 100 by norm_num]
  linarith

/-- Witness for C8: round-tripping a 7% pad recovers it within 1/100. -/
theorem project_pad_roundtrip_witness :
    |((load_project_into_state (serialize_project none [] "shaded"
          ⟨some true, some "aabb", some (7 / 100)⟩ 1)).1.enclosure_pad_percent
        : ℚ) / 100 - 7 / 100| ≤ 1 / 100 :=
  project_pad_roundtrip none [] "shaded" (some true) (some "aabb") 1 (7 / 100)
    (by norm_num)

/-- C1: in AABB mode, for a mesh with at least one vertex and `pad_rel ≥ 0`,
`make_bounding_box` succeeds and returns the rectangular box whose corners
are `center ± extents/2` with center the midpoint of the bounding min/max and
per-axis extents `(max − min) + 2·pad`, `pad = pad_rel × max(diag, 1e-6)`. -/
theorem make_bounding_box_aabb_geometry (m : Mesh) (padRel : ℝ)
    (hv : m.vertices ≠ []) (hpr : 0 ≤ padRel) :
    ∃ box, make_bounding_box m "aabb" padRel = .ok box ∧
      box.vertices = rectCorners
        (fun i => ((boundsMin m.vertices i : ℝ) + (boundsMax m.vertices i : ℝ)) / 2)
        (fun i => ((boundsMax m.vertices i : ℝ) - (boundsMin m.vertices i : ℝ))
          + 2 * (padRel * max (meshDiag m) (1 / 1000000))) := by
  have he : m.vertices.isEmpty = false := by
    cases h : m.vertices with
    | nil => exact absurd h hv
    | cons a t => rfl
  have hmode : (pyLower "aabb" == "obb") = false := rfl
  simp only [make_bounding_box, he, hmode, Bool.false_eq_true, if_false]
  refine ⟨_, rfl, ?_⟩
  simp only [applyTranslation, boxCreation, unitCorners, rectCorners,
    List.map_cons, List.map_nil, List.cons.injEq, and_true]
  refine ⟨?_, ?_, ?_, ?_, ?_, ?_, ?_, ?_⟩ <;>
    · funext i
      fin_cases i <;> simp <;> ring

/-- Witness for C1: the AABB shell of the one-vertex mesh `meshA` with zero
relative padding. -/
theorem make_bounding_box_aabb_geometry_witness :
    ∃ box, make_bounding_box meshA "aabb" 0 = .ok box ∧
      box.vertices = rectCorners
        (fun i => ((boundsMin meshA.vertices i : ℝ) + (boundsMax meshA.vertices i : ℝ)) / 2)
        (fun i => ((boundsMax meshA.vertices i : ℝ) - (boundsMin meshA.vertices i : ℝ))
          + 2 * (0 * max (meshDiag meshA) (1 / 1000000))) :=
  make_bounding_box_aabb_geometry meshA 0 (List.cons_ne_nil _ _) le_rfl

/-- C3: in both AABB and OBB mode, the faces of the synthesized shell are
exactly the naive outward-facing box faces with each face's winding order
reversed (the trimesh inward-normal flip `box.faces[:, ::-1]`). -/
theorem make_bounding_box_faces_reversed (m : Mesh) (mode : String)
    (padRel : ℝ) (hv : m.vertices ≠ []) :
    ∃ box, make_bounding_box m mode padRel = .ok box ∧
      box.faces = outwardBoxFaces.map revFace := by
  have he : m.vertices.isEmpty = false := by
    cases h : m.vertices with
    | nil => exact absurd h hv
    | cons a t => rfl
  simp only [make_bounding_box, he, Bool.false_eq_true, if_false]
  refine ⟨_, rfl, ?_⟩
  split <;> rfl

/-- Witness for C3 (exercising the OBB branch): the OBB-mode shell of
`meshB` has the reversed outward faces. -/
theorem make_bounding_box_faces_reversed_witness :
    ∃ box, make_bounding_box meshB "obb" 0 = .ok box ∧
      box.faces = outwardBoxFaces.map revFace :=
  make_bounding_box_faces_reversed meshB "obb" 0 (List.cons_ne_nil _ _)

/-- Normal form of `add_or_update_enclosure`: the stripped list followed by
a tail that depends only on the mesh, flags and settings (empty, or the
single new bounds part). -/
theorem add_or_update_enclosure_eq (mesh : Option Mesh)
    (parts : List (String × Shape)) (enabled : Bool) (mode : String)
    (padRel : ℝ) (force : Bool) (name : String) :
    add_or_update_enclosure mesh parts enabled mode padRel force name
      = stripParts parts name ++
        (if (!enabled && !force) = true then []
         else if (force || !is_watertight mesh) = true then
           match make_bounding_boxO mesh mode padRel with
           | .ok box => [(name, Shape.shell box)]
           | .error _ => []
         else []) := by
  unfold add_or_update_enclosure
  split
  · simp
  · split
    · split <;> simp
    · simp

/-- Stripping leaves no part named `name`. -/
theorem countP_stripParts (parts : List (String × Shape)) (name : String) :
    (stripParts parts name).countP (fun p => p.1 == name) = 0 := by
  rw [List.countP_eq_zero]
  intro a ha
  simpa using (List.mem_filter.mp ha).2

/-- Stripping distributes over append. -/
theorem stripParts_append (l1 l2 : List (String × Shape)) (n : String) :
    stripParts (l1 ++ l2) n = stripParts l1 n ++ stripParts l2 n :=
  List.filter_append _ _

/-- Stripping is idempotent. -/
theorem stripParts_idem (l : List (String × Shape)) (n : String) :
    stripParts (stripParts l n) n = stripParts l n :=
  List.filter_eq_self.mpr (fun a ha => (List.mem_filter.mp ha).2)

/-- C2: `add_or_update_enclosure` first strips every part named
`bounds_name`; with `enabled = force = false`, or with a watertight mesh and
`force = false`, it returns the stripped list with nothing added; whenever
`force` is set or the mesh is not watertight (and the call is not disabled),
it appends `(bounds_name, shell)` with the synthesizer's shell — in
particular `force = true` always adds/replaces the bounds part regardless of
watertightness. -/
theorem add_or_update_enclosure_cases (mesh : Option Mesh)
    (parts : List (String × Shape)) (enabled : Bool) (mode : String)
    (padRel : ℝ) (force : Bool) (name : String) :
    (enabled = false → force = false →
      add_or_update_enclosure mesh parts enabled mode padRel force name
        = stripParts parts name) ∧
    (is_watertight mesh = true → force = false →
      add_or_update_enclosure mesh parts enabled mode padRel force name
        = stripParts parts name) ∧
    (∀ box : BoxMesh, (force = true ∨ is_watertight mesh = false) →
      (enabled = true ∨ force = true) →
      make_bounding_boxO mesh mode padRel = .ok box →
      add_or_update_enclosure mesh parts enabled mode padRel force name
        = stripParts parts name ++ [(name, Shape.shell box)]) := by
  refine ⟨?_, ?_, ?_⟩
  · rintro rfl rfl
    simp [add_or_update_enclosure]
  · intro hw hf
    subst hf
    cases enabled <;> simp [add_or_update_enclosure, hw]
  · intro box h1 h2 hbox
    have hc1 : (!enabled && !force) = false := by
      rcases h2 with h | h <;> simp [h]
    have hc2 : (force || !is_watertight mesh) = true := by
      rcases h1 with h | h <;> simp [h]
    simp [add_or_update_enclosure, hc1, hc2, hbox]

/-- Witness for C2: forcing on a watertight mesh still replaces the existing
bounds part with a fresh shell. -/
theorem add_or_update_enclosure_cases_witness :
    add_or_update_enclosure (some meshA) [("A", shapeA), ("Bounds", shapeOld)]
        false "aabb" 0 true "Bounds"
      = stripParts [("A", shapeA), ("Bounds", shapeOld)] "Bounds"
        ++ [("Bounds", Shape.shell boxA)] :=
  (add_or_update_enclosure_cases (some meshA)
    [("A", shapeA), ("Bounds", shapeOld)] false "aabb" 0 true "Bounds").2.2
    boxA (Or.inl rfl) (Or.inr rfl) rfl

/-- C4: `add_or_update_enclosure` is idempotent under repeated calls with
identical arguments, and its result contains at most one part named
`bounds_name` — exactly one whenever an enclosure is added. -/
theorem add_or_update_enclosure_idempotent (mesh : Option Mesh)
    (parts : List (String × Shape)) (enabled : Bool) (mode : String)
    (padRel : ℝ) (force : Bool) (name : String) :
    add_or_update_enclosure mesh
        (add_or_update_enclosure mesh parts enabled mode padRel force name)
        enabled mode padRel force name
      = add_or_update_enclosure mesh parts enabled mode padRel force name ∧
    (add_or_update_enclosure mesh parts enabled mode padRel force name).countP
        (fun p => p.1 == name) ≤ 1 ∧
    (∀ box : BoxMesh, (enabled = true ∨ force = true) →
      (force = true ∨ is_watertight mesh = false) →
      make_bounding_boxO mesh mode padRel = .ok box →
      (add_or_update_enclosure mesh parts enabled mode padRel force name).countP
        (fun p => p.1 == name) = 1) := by
  have hT : stripParts
      (if (!enabled && !force) = true then []
       else if (force || !is_watertight mesh) = true then
         match make_bounding_boxO mesh mode padRel with
         | .ok box => [(name, Shape.shell box)]
         | .error _ => []
       else []) name = [] := by
    split
    · rfl
    · split
      · split <;> simp [stripParts]
      · rfl
  have hTcount : (if (!enabled && !force) = true then []
       else if (force || !is_watertight mesh) = true then
         match make_bounding_boxO mesh mode padRel with
         | .ok box => [(name, Shape.shell box)]
         | .error _ => []
       else []).countP (fun p => p.1 == name) ≤ 1 := by
    split
    · simp
    · split
      · split <;> simp
      · simp
  refine ⟨?_, ?_, ?_⟩
  · rw [add_or_update_enclosure_eq mesh parts, add_or_update_enclosure_eq mesh _,
      stripParts_append, stripParts_idem, hT]
    simp
  · rw [add_or_update_enclosure_eq, List.countP_append, countP_stripParts]
    simpa using hTcount
  · intro box h2 h1 hbox
    have hc1 : (!enabled && !force) = false := by
      rcases h2 with h | h <;> simp [h]
    have hc2 : (force || !is_watertight mesh) = true := by
      rcases h1 with h | h <;> simp [h]
    rw [add_or_update_enclosure_eq, List.countP_append, countP_stripParts,
      hc1, hc2, hbox]
    simp

/-- Witness for C4: adding an enclosure to a non-watertight mesh leaves
exactly one bounds part. -/
theorem add_or_update_enclosure_idempotent_witness :
    (add_or_update_enclosure (some meshB) [("A", shapeA)] true "aabb" 0 false
      "Bounds").countP (fun p => p.1 == "Bounds") = 1 :=
  (add_or_update_enclosure_idempotent (some meshB) [("A", shapeA)] true "aabb"
    0 false "Bounds").2.2 boxB (Or.inl rfl) (Or.inr rfl) rfl

/-- C7: an empty mesh makes the synthesizer fail with the "invalid input"
error, and whenever shell construction fails (including the `None`-mesh
case), `add_or_update_enclosure` catches the failure and returns the
stripped part list — it never raises and leaves the non-bounds parts
unchanged. -/
theorem enclosure_failure_is_caught :
    (∀ (m : Mesh) (mode : String) (padRel : ℝ), m.vertices = [] →
      make_bounding_box m mode padRel = .error "Empty mesh") ∧
    (∀ (mesh : Option Mesh) (parts : List (String × Shape)) (enabled : Bool)
      (mode : String) (padRel : ℝ) (force : Bool) (name : String) (e : String),
      make_bounding_boxO mesh mode padRel = .error e →
      add_or_update_enclosure mesh parts enabled mode padRel force name
        = stripParts parts name) := by
  constructor
  · intro m mode padRel h
    simp [make_bounding_box, h]
  · intro mesh parts enabled mode padRel force name e hbb
    rw [add_or_update_enclosure_eq, hbb]
    simp

/-- Witness for C7: a forced call on the empty mesh returns the other parts
untouched, with no enclosure. -/
theorem enclosure_failure_is_caught_witness :
    add_or_update_enclosure (some meshEmpty) [("A", shapeA)] true "aabb" 0
        true "Bounds"
      = stripParts [("A", shapeA)] "Bounds" :=
  enclosure_failure_is_caught.2 (some meshEmpty) [("A", shapeA)] true "aabb" 0
    true "Bounds" "Empty mesh" rfl

end Atlas
